import Mathlib

/-!
Verification of the imessage-for-me protocol core against its
natural-language specification.

The Go sources are shallowly embedded: byte slices become `List Nat`
(each element a byte value), Go machine-integer casts become explicit
`% 2 ^ w`, fallible functions return `Except`, and a Go runtime panic
(out-of-range slice expression) is a dedicated result constructor.
Library crypto primitives (RSA-OAEP, AES-CTR) that the source calls are
taken as function parameters, mirroring the call sites.
-/

namespace Apns

/-- Field of an APNS TLV payload, from `apns/binary.go` (`Field`):
a one-byte identifier plus an opaque byte value. -/
structure Field where
  id : Nat
  value : List Nat
  deriving Repr, DecidableEq

/-- APNS command payload, from `apns/binary.go` (`Payload`):
a one-byte command identifier plus an ordered field list. -/
structure Payload where
  id : Nat
  fields : List Field
  deriving Repr, DecidableEq

/-- Serialization of one field inside `Payload.ToBytes`:
one id byte (`byte(field.ID)`), two big-endian length bytes
(`binary.BigEndian.PutUint16(..., uint16(len(field.Value)))`), then the
raw value bytes copied verbatim. -/
def fieldBytes (f : Field) : List Nat :=
  f.id % 256 :: (f.value.length % 65536) / 256 :: f.value.length % 256 :: f.value

/-- Big-endian 4-byte serialization of a `uint32` value, as written by
`binary.BigEndian.PutUint32`. -/
def be32 (y : Nat) : List Nat :=
  [y / 16777216 % 256, y / 65536 % 256, y / 256 % 256, y % 256]

/-- Go total length computation in `Payload.ToBytes`:
`length := 5; for ...: length += 3 + len(field.Value)`. -/
def goLength (fields : List Field) : Nat :=
  fields.foldr (fun f acc => acc + (3 + f.value.length)) 5

/-- Embedding of `Payload.ToBytes` (`apns/binary.go` lines 52-72):
`[byte(p.ID)] [uint32(length-5) big-endian] [fields...]`. -/
def Payload.ToBytes (p : Payload) : List Nat :=
  p.id % 256 :: be32 ((goLength p.fields - 5) % 4294967296) ++
    (p.fields.map fieldBytes).flatten

/-- Result of running a Go decoding function: normal error return,
successful return, or a runtime panic caused by an out-of-range slice
expression. -/
inductive DecodeResult where
  | outOfRange
  | err (msg : String)
  | ok (p : Payload)
  deriving Repr, DecidableEq

/-- Embedding of `Payload.unmarshalFieldsFromBytes` (`apns/binary.go`
lines 118-134): the loop `for i+3 <= len(data)` reads one field header,
errors when the declared field length overruns the remaining bytes
(`invalid field length`), and exits silently (successfully) when fewer
than three bytes remain. -/
def unmarshalFields (data : List Nat) : Except String (List Field) :=
  match data with
  | id :: hi :: lo :: rest =>
    let fieldLength := hi * 256 + lo
    if rest.length < fieldLength then
      .error "invalid field length"
    else
      match unmarshalFields (rest.drop fieldLength) with
      | .error e => .error e
      | .ok fs => .ok ({ id := id, value := rest.take fieldLength } :: fs)
  | _ => .ok []
termination_by data.length
decreasing_by
  simp only [List.length_drop, List.length_cons]
  omega

/-- Embedding of `Payload.UnmarshalBinary` (`apns/binary.go` lines
102-115).  Empty input is `empty payload`; command id zero
short-circuits to an empty payload; fewer than five bytes is
`invalid payload length`; otherwise the slice expression
`data[5 : 5+length]` is taken, whose upper bound `5+length` is computed
in `uint32` and therefore wraps modulo `2 ^ 32`: for
`length >= 2 ^ 32 - 5` the wrapped bound falls below the lower bound 5
and the slice panics unconditionally, and for an in-range bound
exceeding the buffer it panics too; any trailing bytes beyond the
declared length are silently dropped. -/
def Payload.UnmarshalBinary (data : List Nat) : DecodeResult :=
  match data with
  | [] => .err "empty payload"
  | id :: rest =>
    if id = 0 then .ok { id := 0, fields := [] }
    else
      match rest with
      | b1 :: b2 :: b3 :: b4 :: rest2 =>
        let length := ((b1 * 256 + b2) * 256 + b3) * 256 + b4
        let high := (5 + length) % 4294967296
        if high < 5 then .outOfRange
        else if rest2.length < high - 5 then .outOfRange
        else
          match unmarshalFields (rest2.take (high - 5)) with
          | .error e => .err e
          | .ok fs => .ok { id := id, fields := fs }
      | _ => .err "invalid payload length"

/-- Embedding of `KeepAliveCommand.ToPayload` (commands file):
`Payload{ID: CommandKeepAlive, Fields: []}` with `CommandKeepAlive = 12`. -/
def KeepAliveCommand.ToPayload : Payload :=
  { id := 12, fields := [] }

/-- Error returned by the precondition checks at the top of
`Connection.Connect` (`apns/connection.go` lines 62-68). -/
inductive ConnectPrecheckError where
  | missingCertOrKey
  | noToken
  deriving Repr, DecidableEq

/-- Embedding of the precondition checks of `Connection.Connect`
(`apns/connection.go` lines 62-68): a nil private key or nil device
certificate fails with `missing push certificate or key`; then a
zero-length token fails with `ErrNoToken`.  `some e` means Connect
returns early with error `e` before any network activity. -/
def connectPrecheck (hasPrivateKey hasDeviceCert : Bool)
    (token : List Nat) : Option ConnectPrecheckError :=
  if !hasPrivateKey || !hasDeviceCert then some .missingCertOrKey
  else if token.length = 0 then some .noToken
  else none

/-- The push token held by the connection that
`RealHandshaker.Handshake` constructs (`handshake_real.go` lines
119-131): `var pushToken []byte` is declared and never assigned, so the
connection starts with an empty token. -/
def handshakePushToken : List Nat := []

/-- Outcome of one iteration of `Connection.ReadLoop`
(`apns/connection.go` lines 185-227) after a frame has been read:
either the loop continues to the next read, having written the listed
byte strings back to the connection, or the iteration is fatal and the
loop returns an error. -/
inductive LoopStep where
  | next (writes : List (List Nat))
  | fatal
  deriving Repr, DecidableEq

/-- Embedding of the dispatch `switch` inside `Connection.ReadLoop`
(`apns/connection.go` lines 198-225), parameterised by whether a write
to the connection succeeds (`writeOk`).  A send-message frame (id 10)
goes to the message callback, whose error is only logged; a keep-alive
frame (id 12) triggers exactly one keep-alive reply write, fatal only
when that write fails; the four ack ids are silently ignored; any other
id is logged and ignored. -/
def readLoopStep (writeOk : Bool) (p : Payload) : LoopStep :=
  if p.id = 10 then .next []
  else if p.id = 12 then
    if writeOk then .next [KeepAliveCommand.ToPayload.ToBytes] else .fatal
  else if p.id = 8 || p.id = 14 || p.id = 11 || p.id = 13 then .next []
  else .next []

end Apns

namespace Messaging

/-- Error conditions of `ParseBody` (`decrypt.go` lines 28-56); each
constructor corresponds to one of the formatted messages
`too short payload (missing header ...)`,
`... (missing body ...)`, `... (missing signature ...)`. -/
inductive ParseErr where
  | missingHeader
  | missingBody
  | missingSignature
  deriving Repr, DecidableEq

/-- Embedding of `ParsedBody` (`decrypt.go`): tag byte, body bytes,
signature bytes. -/
structure ParsedBody where
  Tag : Nat
  Body : List Nat
  Signature : List Nat
  deriving Repr, DecidableEq

/-- Result of running `ParseBody`: error return, parsed body, or a Go
runtime panic from an out-of-range slice or index expression. -/
inductive ParseBodyResult where
  | outOfRange
  | err (e : ParseErr)
  | ok (pb : ParsedBody)
  deriving Repr, DecidableEq

/-- Embedding of `ParseBody` (`decrypt.go` lines 28-56).
Layout `[tag:1][bodyLen:2 big-endian][body:bodyLen][sigLen:1][sig...]`.
`bodyLength` is a `uint16`, so the Go expressions
`int(3 + bodyLength + 1)` (the missing-body bound), the slice
`payload[3 : 3+bodyLength]`, the index `payload[3+bodyLength]`,
the bound `int(3 + bodyLength + 1 + uint16(signatureLength))` and the
slice `payload[3+bodyLength+1:]` are all computed modulo `2 ^ 16`.
For declared lengths below 65532 nothing wraps: fewer than 4 input
bytes is `missingHeader`, a buffer shorter than `3 + bodyLen + 1` is
`missingBody`, one shorter than `3 + bodyLen + 1 + sigLen` is
`missingSignature`, and success returns the tag, the declared-length
body and every byte after the signature-length byte.  At and above
65532 the wrapped bounds let the length checks pass and the wrapped
slice and index expressions panic (`outOfRange`). -/
def ParseBody (payload : List Nat) : ParseBodyResult :=
  if payload.length < 4 then .err .missingHeader
  else
    match payload with
    | tag :: hi :: lo :: _ =>
      let bodyLength := hi * 256 + lo
      let expectedLength := (3 + bodyLength + 1) % 65536
      if payload.length < expectedLength then .err .missingBody
      else
        let k1 := (3 + bodyLength) % 65536
        if k1 < 3 then .outOfRange
        else if payload.length ≤ k1 then .outOfRange
        else
          let body := (payload.drop 3).take (k1 - 3)
          let signatureLength := payload.getD k1 0
          if payload.length < (3 + bodyLength + 1 + signatureLength) % 65536
          then .err .missingSignature
          else
            let k2 := (3 + bodyLength + 1) % 65536
            if payload.length < k2 then .outOfRange
            else .ok { Tag := tag, Body := body,
                       Signature := payload.drop k2 }
    | _ => .err .missingHeader

/-- The all-zero 16-byte AES-CTR initialization vector `normalIV`
(`decrypt.go` line 17). -/
def normalIV : List Nat := List.replicate 16 0

/-- Result of `DecryptPairPayload`: error return, decrypted bytes, or a
Go runtime panic from the out-of-range slice expression
`decryptedEncryptionKey[:16]`. -/
inductive PairResult where
  | outOfRange
  | err (msg : String)
  | ok (plain : List Nat)
  deriving Repr, DecidableEq

/-- Embedding of `DecryptPairPayload` (`decrypt.go` lines 59-88),
parameterised by the library primitives it calls: `rsaDecryptOAEP`
stands for `rsa.DecryptOAEP(sha1.New(), rand.Reader, privateKey, ., nil)`
and `aesCtr key iv data` for the AES-CTR keystream application
`cipher.NewCTR(aes.NewCipher(key), iv).XORKeyStream` on `data`
(a 16-byte key never makes `aes.NewCipher` fail).  The body must be at
least 160 bytes; its first 160 bytes are RSA-decrypted; the first 16
plaintext bytes become the AES key (an out-of-range slice — panic —
when the plaintext is shorter); the plaintext past the key is prepended
to the remaining raw bytes and the whole is AES-CTR-processed with the
all-zero IV. -/
def DecryptPairPayload {K : Type}
    (rsaDecryptOAEP : K → List Nat → Except String (List Nat))
    (aesCtr : List Nat → List Nat → List Nat → List Nat)
    (privateKey : K) (body : ParsedBody) : PairResult :=
  if body.Body.length < 160 then
    .err "too short payload (missing encryption key)"
  else
    let encryptedEncryptionKey := body.Body.take 160
    let actualEncryptedMessage := body.Body.drop 160
    match rsaDecryptOAEP privateKey encryptedEncryptionKey with
    | .error e => .err ("failed to decrypt encryption key: " ++ e)
    | .ok decryptedEncryptionKey =>
      if decryptedEncryptionKey.length < 16 then .outOfRange
      else
        let aesKey := decryptedEncryptionKey.take 16
        let decryptionInput :=
          decryptedEncryptionKey.drop 16 ++ actualEncryptedMessage
        .ok (aesCtr aesKey normalIV decryptionInput)

end Messaging

namespace Ids

/-- Per-user entry of a registration response (`identity.go`
`RegisterRespServiceUser`): profile id and DER certificate bytes.
`Cert` is `none` when the plist held no `cert` key (a nil Go slice). -/
structure RegisterRespServiceUser where
  UserID : String
  Cert : Option (List Nat)
  deriving Repr, DecidableEq

/-- Per-service entry of a registration response (`identity.go`
`RegisterRespService`). -/
structure RegisterRespService where
  Users : List RegisterRespServiceUser
  deriving Repr, DecidableEq

/-- Registration response (`identity.go` `RegisterResp`): embedded IDS
status, human-readable message, and service entries. -/
structure RegisterResp where
  Status : Int
  Message : String
  Services : List RegisterRespService
  deriving Repr, DecidableEq

/-- The dynamic kind of error value `HTTPClient.Register`
(`ids/http.go` lines 35-87) can return.  `plainText` is a bare
`fmt.Errorf` string (the only kind the status branch produces);
`idsTyped` stands for an `ids.IDSError{ErrorCode: ...}` value, the typed
condition defined in the ids package that `errors.Is` can match against
`Err2FARequired`, `ErrInvalidNameOrPassword`, etc. -/
inductive RegisterError where
  | transport (msg : String)
  | httpStatus (code : Nat)
  | plainText (msg : String)
  | idsTyped (code : Int)
  deriving Repr, DecidableEq

/-- Whether a `Register` outcome is the typed IDS condition an embedder
could pattern-match with `errors.Is`. -/
def isTypedStatusError : Except RegisterError RegisterResp → Bool
  | .error (.idsTyped _) => true
  | _ => false

/-- Embedding of the response-status handling at the end of
`HTTPClient.Register` (`ids/http.go` lines 81-86): a non-zero embedded
status aborts with the bare formatted error
`registration failed with status %d: %s`; otherwise the parsed response
is returned. -/
def registerCheckStatus (resp : RegisterResp) : Except RegisterError RegisterResp :=
  if resp.Status ≠ 0 then
    .error (.plainText ("registration failed with status " ++
      toString resp.Status ++ ": " ++ resp.Message))
  else .ok resp

/-- Error conditions of the response-shape checks in
`RealHandshaker.Handshake` (`handshake_real.go` lines 95-108); each
constructor corresponds to one formatted message
(`no services in registration response`, `no users ...`,
`no ID certificate ...`). -/
inductive HandshakeRespError where
  | noServices
  | noUsers
  | noCert
  deriving Repr, DecidableEq

/-- Embedding of the response-shape checks of `RealHandshaker.Handshake`
(`handshake_real.go` lines 95-108): take `Services[0]`, then `Users[0]`,
then require a non-nil certificate; on success return the user id and
the DER certificate bytes that are then parsed and stored. -/
def extractRegistration (resp : RegisterResp) :
    Except HandshakeRespError (String × List Nat) :=
  match resp.Services with
  | [] => .error .noServices
  | service :: _ =>
    match service.Users with
    | [] => .error .noUsers
    | user :: _ =>
      match user.Cert with
      | none => .error .noCert
      | some der => .ok (user.UserID, der)

end Ids

namespace Messaging

/-- Device descriptor inside the persisted registration input
(`config` package, `DeviceInfo`). -/
structure DeviceInfo where
  HardwareVersion : String
  SoftwareName : String
  SoftwareVersion : String
  SoftwareBuildID : String
  SerialNumber : String
  UniqueDeviceID : String
  Hostname : String
  deriving Repr, DecidableEq

/-- Persisted registration input (`config` package,
`RegistrationData`): opaque validation bytes, expiry instant (modelled
as a `Nat` clock value), nacserv commit string and device descriptor. -/
structure RegistrationData where
  ValidationData : List Nat
  ValidUntil : Nat
  NacservCommit : String
  DeviceInfo : DeviceInfo
  deriving Repr, DecidableEq

/-- Embedding of `RegistrationData.IsExpired` (`config` package):
a nil receiver is expired; otherwise expired exactly when
`time.Now().After(r.ValidUntil)`, i.e. the current clock is strictly
past the valid-until instant. -/
def RegistrationData.IsExpired (r : Option RegistrationData) (now : Nat) : Bool :=
  match r with
  | none => true
  | some r => decide (r.ValidUntil < now)

/-- A session message (`Message` struct of the messaging package). -/
structure Msg where
  ID : String
  Chat : String
  Sender : String
  Text : String
  Timestamp : Nat
  Service : String
  deriving Repr, DecidableEq

/-- A Go buffered channel of messages: `none` is a nil channel (the
zero value of a `chan` field that was never `make`d); `some (cap, buf)`
is a channel of capacity `cap` currently buffering `buf`. -/
def MsgChan : Type := Option (Nat × List Msg)

/-- Non-blocking send, the semantics of
`select { case ch <- msg: ...; default: ... }`: on a nil channel the
send case is never ready so the default branch is always taken; on a
buffered channel the send succeeds exactly when the buffer is below
capacity.  Returns the updated channel and whether the send happened. -/
def chanTrySend (ch : MsgChan) (m : Msg) : MsgChan × Bool :=
  match ch with
  | none => (none, false)
  | some (cap, buf) =>
    if buf.length < cap then (some (cap, buf ++ [m]), true)
    else (some (cap, buf), false)

/-- Non-blocking drain, the semantics of the
`for { select { case msg := <-s.messageChan: ...; default: return } }`
loop in `Session.FetchMessages`: a nil channel yields nothing; a
buffered channel yields its whole buffer. -/
def chanDrain (ch : MsgChan) : List Msg × MsgChan :=
  match ch with
  | none => ([], none)
  | some (cap, buf) => (buf, some (cap, []))

/-- The session state relevant to the accumulation queue: the
`messageChan` field of `Session`. -/
structure SessionModel where
  registration : RegistrationData
  messageChan : MsgChan

/-- Error values returned by `messaging.Connect` (session file lines
28-43 plus the shared `errors.go` sentinels). -/
inductive SessionConnectError where
  | nilRegistration
  | invalidRegistrationData
  | registrationExpired
  deriving Repr, DecidableEq

/-- Embedding of `messaging.Connect` (session file lines 28-43):
reject a nil registration (`registration data is nil`), then empty
validation data (`ErrInvalidRegistrationData`), then an expired
registration (`ErrRegistrationExpired`); otherwise build the session by
struct literal — which leaves `messageChan` at its zero value, a nil
channel.  No handshake or network activity happens here; the handshake
runs lazily later via `ensureHandshake`. -/
def Connect (reg : Option RegistrationData) (now : Nat) :
    Except SessionConnectError SessionModel :=
  match reg with
  | none => .error .nilRegistration
  | some r =>
    if r.ValidationData.length = 0 then .error .invalidRegistrationData
    else if RegistrationData.IsExpired (some r) now then
      .error .registrationExpired
    else .ok { registration := r, messageChan := none }

/-- Decrypted message document (`IMessagePayload` in `decrypt.go`). -/
structure IMessagePayload where
  Text : String
  Subject : String
  Participants : List String
  GroupID : String
  Version : Nat
  MessageUUID : String
  deriving Repr, DecidableEq

/-- Result of `Session.handleAPNSMessage` (session file lines 134-206):
`ok` is a nil error return, the others are the formatted error returns
of the three paths. -/
inductive HandleResult where
  | ok
  | channelFull
  | decryptionFailed (e : String)
  deriving Repr, DecidableEq

/-- Embedding of `Session.handleAPNSMessage` (session file lines
134-206), parameterised by the decryption pipeline outcome
(`decrypt` stands for `DecryptMessage(key, payload.Payload)`).
`hasKey` is whether `s.state`, `s.state.IDSConfig` and its encryption
key are all non-nil.  Every path synthesizes a `Message` and offers it
to `messageChan` with a non-blocking send; when the send is not ready
the handler returns `message channel full` and the message is lost.
On a decryption failure the synthesized placeholder text embeds the
error and the payload size, and even a successful enqueue still returns
the `decryption failed` error (which the read loop only logs). -/
def handleAPNSMessage (ch : MsgChan) (hasKey : Bool)
    (decrypt : List Nat → Except String IMessagePayload)
    (payloadBytes : List Nat) (topic : String) (now : Nat) :
    MsgChan × HandleResult :=
  if !hasKey then
    let msg : Msg :=
      { ID := "msg-" ++ toString now, Chat := "unknown-chat",
        Sender := "unknown-sender",
        Text := "[Encrypted] " ++ toString payloadBytes.length ++
          " bytes from " ++ topic,
        Timestamp := now, Service := "" }
    match chanTrySend ch msg with
    | (ch2, true) => (ch2, .ok)
    | (ch2, false) => (ch2, .channelFull)
  else
    match decrypt payloadBytes with
    | .error e =>
      let msg : Msg :=
        { ID := "msg-" ++ toString now, Chat := "unknown-chat",
          Sender := "unknown-sender",
          Text := "[Decrypt failed: " ++ e ++ "] " ++
            toString payloadBytes.length ++ " bytes",
          Timestamp := now, Service := "" }
      match chanTrySend ch msg with
      | (ch2, true) => (ch2, .decryptionFailed e)
      | (ch2, false) => (ch2, .channelFull)
    | .ok imsg =>
      let chat :=
        if imsg.GroupID ≠ "" then imsg.GroupID
        else match imsg.Participants with
          | p :: _ => p
          | [] => "direct"
      let sender :=
        match imsg.Participants with
        | p :: _ => p
        | [] => "unknown"
      let msgID :=
        if imsg.MessageUUID = "" then "msg-" ++ toString now
        else imsg.MessageUUID
      let msg : Msg :=
        { ID := msgID, Chat := chat, Sender := sender,
          Text := imsg.Text, Timestamp := now, Service := "" }
      match chanTrySend ch msg with
      | (ch2, true) => (ch2, .ok)
      | (ch2, false) => (ch2, .channelFull)

/-- Embedding of the drain loop of `Session.FetchMessages` (session
file lines 254-272): all buffered messages are returned; a nil channel
yields the empty list immediately. -/
def FetchMessagesDrain (ch : MsgChan) : List Msg :=
  (chanDrain ch).1

end Messaging

namespace Apns

/-- The Go running-length computation agrees with the length of the
serialized field bytes. -/
theorem goLength_eq (fs : List Field) :
    goLength fs = 5 + ((fs.map fieldBytes).flatten).length := by
  induction fs with
  | nil => rfl
  | cons f fs ih =>
    simp only [goLength, List.foldr_cons, List.map_cons, List.flatten_cons,
      List.length_append, fieldBytes, List.length_cons] at *
    omega

/-- Reading back the two big-endian length bytes written for a value of
length `n < 2 ^ 16` recovers `n`. -/
theorem fieldLen_roundtrip (n : Nat) (h : n < 65536) :
    (n % 65536) / 256 * 256 + n % 256 = n := by
  omega

/-- Reading back the four big-endian bytes written for `y < 2 ^ 32`
recovers `y`. -/
theorem be32_roundtrip (y : Nat) (hy : y < 4294967296) :
    ((y / 16777216 % 256 * 256 + y / 65536 % 256) * 256 + y / 256 % 256) * 256
      + y % 256 = y := by
  omega

/-- Field-level round trip: parsing the concatenated serializations of
a field list recovers exactly that list, provided every field has a
byte-sized id and a value shorter than `2 ^ 16` bytes. -/
theorem unmarshalFields_flatten (fs : List Field)
    (h : ∀ f ∈ fs, f.id < 256 ∧ f.value.length < 65536) :
    unmarshalFields ((fs.map fieldBytes).flatten) = .ok fs := by
  induction fs with
  | nil => simp [unmarshalFields]
  | cons f fs ih =>
    obtain ⟨hid, hlen⟩ := h f (List.mem_cons_self f fs)
    have hrest : ∀ g ∈ fs, g.id < 256 ∧ g.value.length < 65536 :=
      fun g hg => h g (List.mem_cons_of_mem f hg)
    have hflen : (f.value.length % 65536) / 256 * 256 + f.value.length % 256
        = f.value.length := fieldLen_roundtrip _ hlen
    rw [List.map_cons, List.flatten_cons, fieldBytes, List.cons_append,
      List.cons_append, List.cons_append, unmarshalFields]
    rw [hflen]
    have hnlt : ¬ ((f.value ++ (fs.map fieldBytes).flatten).length
        < f.value.length) := by
      simp [List.length_append]
    rw [if_neg hnlt]
    rw [List.drop_left' rfl, ih hrest, List.take_left' rfl]
    have : f.id % 256 = f.id := Nat.mod_eq_of_lt hid
    rw [this]

/-- C4 (amended): round trip of the wire codec.  For every Frame whose
command id is nonzero (and byte-sized, as the Go `CommandID` type
enforces) and whose field ids are byte-sized, provided each field value
is shorter than `2 ^ 16` bytes and the total encoded field bytes are at
most `2 ^ 32 - 6` (so the uint16 field-length casts do not truncate and
the uint32 computation `5+length` in the decoder cannot wrap), decoding
the bytes produced by encoding the frame yields the frame again, field
insertion order preserved, duplicates and zero-length values
included. -/
theorem payload_roundtrip (p : Payload)
    (hid0 : p.id ≠ 0) (hid : p.id < 256)
    (hf : ∀ f ∈ p.fields, f.id < 256 ∧ f.value.length < 65536)
    (htot : ((p.fields.map fieldBytes).flatten).length < 4294967291) :
    Payload.UnmarshalBinary (Payload.ToBytes p) = .ok p := by
  have hL := goLength_eq p.fields
  set body := (p.fields.map fieldBytes).flatten with hbody
  have hmod : (goLength p.fields - 5) % 4294967296 = body.length := by
    rw [hL]
    simp [Nat.add_sub_cancel_left, Nat.mod_eq_of_lt (by omega : body.length < 4294967296)]
  rw [Payload.ToBytes, hmod, be32]
  simp only [List.cons_append, List.nil_append]
  rw [Payload.UnmarshalBinary.eq_def]
  dsimp only
  rw [if_neg (by simpa [Nat.mod_eq_of_lt hid] using hid0)]
  rw [be32_roundtrip body.length (by omega)]
  rw [Nat.mod_eq_of_lt (by omega : 5 + body.length < 4294967296)]
  rw [if_neg (by omega)]
  rw [Nat.add_sub_cancel_left]
  rw [if_neg (Nat.lt_irrefl _)]
  rw [List.take_length, unmarshalFields_flatten p.fields hf]
  rw [Nat.mod_eq_of_lt hid]

/-- C4 counterexample: the claim fails as stated for command id 0.
Encoding the frame with id 0 and one field, then decoding, loses the
field: the decoder treats id 0 as the "no command" sentinel and
short-circuits to an empty frame. -/
theorem payload_roundtrip_cex :
    Payload.UnmarshalBinary
        (Payload.ToBytes { id := 0, fields := [{ id := 1, value := [] }] }) =
      .ok { id := 0, fields := [] } ∧
    ({ id := 0, fields := [] } : Payload) ≠
      { id := 0, fields := [{ id := 1, value := [] }] } := by
  exact ⟨rfl, by decide⟩

/-- C4 witness: the round-trip theorem applied to a concrete frame with
a duplicate field id and a zero-length value. -/
theorem payload_roundtrip_witness :
    Payload.UnmarshalBinary
        (Payload.ToBytes
          { id := 7, fields := [{ id := 1, value := [170, 187] },
                                { id := 1, value := [] }] }) =
      .ok { id := 7, fields := [{ id := 1, value := [170, 187] },
                                { id := 1, value := [] }] } :=
  payload_roundtrip _ (by decide) (by decide) (by decide) (by decide)

/-- C3: evaluation of the decoder at the inputs where the claim fails.
First, on the five-byte buffer `01 00 00 00 01` the declared frame
length (1) exceeds the zero bytes available, and `UnmarshalBinary`
takes the out-of-range slice `data[5:6]` — a Go runtime panic, not a
framing error.  Second, on `01 00 00 00 00 63` the trailing byte `63`
lies beyond the declared frame length and is silently ignored, a
partial acceptance.  Third, the field parser silently accepts a
leftover one-byte remnant instead of raising a framing error. -/
theorem unmarshalBinary_not_total :
    Payload.UnmarshalBinary [1, 0, 0, 0, 1] = .outOfRange ∧
    Payload.UnmarshalBinary [1, 0, 0, 0, 0, 99] =
      .ok { id := 1, fields := [] } ∧
    unmarshalFields [7] = .ok [] := by
  refine ⟨rfl, ?_, ?_⟩
  · simp [Payload.UnmarshalBinary, unmarshalFields]
  · simp [unmarshalFields]

/-- C8: every inbound keep-alive frame (command id 12) makes the
dispatch loop write back exactly one keep-alive reply — the bytes
`0C 00 00 00 00` of `KeepAliveCommand.ToPayload` — and continue with
the next read; the iteration is fatal only when that reply write itself
fails. -/
theorem readLoop_keepAlive (p : Payload) (writeOk : Bool)
    (hid : p.id = 12) :
    (writeOk = true →
      readLoopStep writeOk p = .next [KeepAliveCommand.ToPayload.ToBytes] ∧
      KeepAliveCommand.ToPayload.ToBytes = [12, 0, 0, 0, 0]) ∧
    (writeOk = false → readLoopStep writeOk p = .fatal) := by
  constructor
  · intro hw
    subst hw
    exact ⟨by simp [readLoopStep, hid], rfl⟩
  · intro hw
    subst hw
    simp [readLoopStep, hid]

/-- C8 witness: the keep-alive theorem applied to the literal
keep-alive frame with a succeeding write. -/
theorem readLoop_keepAlive_witness :
    readLoopStep true KeepAliveCommand.ToPayload =
      .next [KeepAliveCommand.ToPayload.ToBytes] ∧
    KeepAliveCommand.ToPayload.ToBytes = [12, 0, 0, 0, 0] :=
  (readLoop_keepAlive KeepAliveCommand.ToPayload true rfl).1 rfl

/-- C2: evaluation of the `Connect` precondition checks at the
first-ever-connect state.  A connection holding a signing key and a
device certificate but the empty push token that
`RealHandshaker.Handshake` constructs is rejected with `ErrNoToken`
instead of proceeding, contradicting the claim (and the handshake code
comment that the token is only learned from the connect-ack). -/
theorem connect_rejects_empty_token :
    connectPrecheck true true handshakePushToken = some .noToken := rfl

end Apns

namespace Messaging

/-- C7: evaluation of `ParseBody` where the claim fails, and where it
holds.  The buffer `[9, 255, 255, 0]` is shorter than its declared
body length 65535, so the claim requires the missing-body error — but
the Go bound `int(3 + bodyLength + 1)` is computed in `uint16` and
wraps to 3, the check passes, and the also-wrapped slice
`payload[3 : 3+bodyLength]` becomes `payload[3:2]`, a runtime panic.
The second and third conjuncts show the claimed behaviour at declared
lengths where no wrap occurs: a short buffer with declared length 2
fails missing-body, a buffer shorter than 4 bytes fails missing-header,
and a well-formed buffer returns the tag, the declared-length body and
the bytes after the signature-length byte. -/
theorem parseBody_uint16_wrap :
    ParseBody [9, 255, 255, 0] = .outOfRange ∧
    ParseBody [9, 0, 2, 0] = .err .missingBody ∧
    ParseBody [1, 2] = .err .missingHeader ∧
    ParseBody [9, 0, 2, 10, 11, 1, 99] =
      .ok { Tag := 9, Body := [10, 11], Signature := [99] } := by
  exact ⟨rfl, rfl, rfl, rfl⟩

/-- C5: for every RSA private key and every parsed body of at least 160
bytes whose first 160 bytes RSA-OAEP-decrypt to a 16-byte AES key
followed by the initial ciphertext chunk, `DecryptPairPayload` returns
exactly the AES-CTR application (all-zero 16-byte IV, recovered key) to
the reassembled ciphertext — the plaintext bytes after the key
concatenated with the remaining raw body bytes — and a body shorter
than 160 bytes fails with an error. -/
theorem decryptPairPayload_spec {K : Type}
    (rsaDecryptOAEP : K → List Nat → Except String (List Nat))
    (aesCtr : List Nat → List Nat → List Nat → List Nat)
    (privateKey : K) (body : ParsedBody) (aesKey chunk : List Nat) :
    (body.Body.length < 160 →
      DecryptPairPayload rsaDecryptOAEP aesCtr privateKey body =
        .err "too short payload (missing encryption key)") ∧
    (160 ≤ body.Body.length →
      rsaDecryptOAEP privateKey (body.Body.take 160) = .ok (aesKey ++ chunk) →
      aesKey.length = 16 →
      DecryptPairPayload rsaDecryptOAEP aesCtr privateKey body =
        .ok (aesCtr aesKey normalIV (chunk ++ body.Body.drop 160))) := by
  constructor
  · intro h
    rw [DecryptPairPayload, if_pos h]
  · intro h160 hrsa hkey
    rw [DecryptPairPayload, if_neg (by omega)]
    dsimp only
    rw [hrsa]
    dsimp only
    rw [if_neg (by simp [List.length_append]; omega)]
    rw [List.take_left' hkey, List.drop_left' hkey]

/-- C5 witness: the decryption theorem applied with concrete
primitives — a decryption oracle returning a fixed 16-byte key and a
3-byte chunk, an AES-CTR stand-in, and a 165-byte body. -/
theorem decryptPairPayload_spec_witness :
    DecryptPairPayload
        (fun (_ : Unit) (_ : List Nat) =>
          Except.ok (List.replicate 16 7 ++ [1, 2, 3]))
        (fun _ _ data => data) () ⟨0, List.replicate 165 5, []⟩ =
      .ok ((fun _ _ data => data : List Nat → List Nat → List Nat → List Nat)
        (List.replicate 16 7) normalIV
        ([1, 2, 3] ++ (List.replicate 165 5).drop 160)) :=
  (decryptPairPayload_spec
    (fun (_ : Unit) (_ : List Nat) =>
      Except.ok (List.replicate 16 7 ++ [1, 2, 3]))
    (fun _ _ data => data) () ⟨0, List.replicate 165 5, []⟩
    (List.replicate 16 7) [1, 2, 3]).2 (by simp) rfl (by simp)

/-- C10: the minimum-length check of `DecryptPairPayload` constrains
only the encrypted body, not the RSA-OAEP plaintext: whenever the body
is at least 160 bytes but the recovered plaintext is shorter than the
16 bytes taken unconditionally as the AES key, the key slice
`decryptedEncryptionKey[:16]` is out of range — a Go runtime panic, not
an error return. -/
theorem decryptPairPayload_short_plaintext {K : Type}
    (rsaDecryptOAEP : K → List Nat → Except String (List Nat))
    (aesCtr : List Nat → List Nat → List Nat → List Nat)
    (privateKey : K) (body : ParsedBody) (dec : List Nat)
    (h160 : 160 ≤ body.Body.length)
    (hrsa : rsaDecryptOAEP privateKey (body.Body.take 160) = .ok dec)
    (hshort : dec.length < 16) :
    DecryptPairPayload rsaDecryptOAEP aesCtr privateKey body =
      .outOfRange := by
  rw [DecryptPairPayload, if_neg (by omega)]
  dsimp only
  rw [hrsa]
  dsimp only
  rw [if_pos hshort]

/-- C10 witness: the short-plaintext theorem applied with a decryption
oracle that recovers only 4 plaintext bytes from a 160-byte body. -/
theorem decryptPairPayload_short_plaintext_witness :
    DecryptPairPayload
        (fun (_ : Unit) (_ : List Nat) => Except.ok [1, 2, 3, 4])
        (fun _ _ data => data) () ⟨0, List.replicate 160 5, []⟩ =
      .outOfRange :=
  decryptPairPayload_short_plaintext
    (fun (_ : Unit) (_ : List Nat) => Except.ok [1, 2, 3, 4])
    (fun _ _ data => data) () ⟨0, List.replicate 160 5, []⟩ [1, 2, 3, 4]
    (by simp) rfl (by simp)

/-- C9: `messaging.Connect` validates the registration input before any
handshake or network activity (its body performs only these checks and
a struct construction; the handshake is deferred to `ensureHandshake`):
a nil registration, a registration with empty validation data, and a
registration whose valid-until instant is earlier than the current time
are each rejected with a distinct error, and no session is returned. -/
theorem connect_validates_registration (now : Nat) (r : RegistrationData) :
    Connect none now = .error .nilRegistration ∧
    (r.ValidationData = [] →
      Connect (some r) now = .error .invalidRegistrationData) ∧
    (r.ValidationData ≠ [] → r.ValidUntil < now →
      Connect (some r) now = .error .registrationExpired) ∧
    (SessionConnectError.nilRegistration ≠ .invalidRegistrationData ∧
     SessionConnectError.nilRegistration ≠ .registrationExpired ∧
     SessionConnectError.invalidRegistrationData ≠ .registrationExpired) := by
  refine ⟨rfl, ?_, ?_, by decide⟩
  · intro h
    simp [Connect, h]
  · intro h1 h2
    have hne : r.ValidationData.length ≠ 0 := by
      simpa [List.length_eq_zero] using h1
    simp [Connect, RegistrationData.IsExpired, hne, h2]

/-- Device descriptor with every field empty, the zero value of the Go
struct. -/
def emptyDeviceInfo : DeviceInfo :=
  { HardwareVersion := "", SoftwareName := "", SoftwareVersion := "",
    SoftwareBuildID := "", SerialNumber := "", UniqueDeviceID := "",
    Hostname := "" }

/-- Registration record with empty validation data, for concrete
evaluation. -/
def regEmptyValidation : RegistrationData :=
  { ValidationData := [],
    ValidUntil := 9,
    NacservCommit := "",
    DeviceInfo := emptyDeviceInfo }

/-- Registration record whose valid-until instant 3 lies before the
clock value 10, for concrete evaluation. -/
def regExpired : RegistrationData :=
  { ValidationData := [1],
    ValidUntil := 3,
    NacservCommit := "",
    DeviceInfo := emptyDeviceInfo }

/-- Valid registration record, for concrete evaluation. -/
def regValid : RegistrationData :=
  { ValidationData := [1],
    ValidUntil := 9,
    NacservCommit := "",
    DeviceInfo := emptyDeviceInfo }

/-- C9 witness: the validation theorem applied to the nil registration,
a registration with empty validation data, and an expired
registration. -/
theorem connect_validates_registration_witness :
    Connect none 5 = .error .nilRegistration ∧
    Connect (some regEmptyValidation) 5 = .error .invalidRegistrationData ∧
    Connect (some regExpired) 10 = .error .registrationExpired :=
  ⟨(connect_validates_registration 5 regEmptyValidation).1,
   (connect_validates_registration 5 regEmptyValidation).2.1 rfl,
   (connect_validates_registration 10 regExpired).2.2.1
      (by decide) (by decide)⟩

/-- C1: evaluation of the session pipeline at the failing state.  The
session built by `messaging.Connect` never allocates `messageChan`
(the struct literal leaves it a nil channel), so when decryption of an
inbound payload fails the synthesized placeholder message is never
enqueued — the non-blocking send always falls to the default branch and
the handler reports `message channel full` — and `FetchMessages` drains
nothing, so no poll ever reports the activity.  The same handler call
against a properly allocated channel (capacity 8, as the intended
design describes) does enqueue the placeholder, isolating the missing
`make(chan *Message, ...)` as the defect. -/
theorem decrypt_failure_placeholder_lost :
    (Connect (some regValid) 5 =
      .ok { registration := regValid, messageChan := none }) ∧
    handleAPNSMessage none true (fun _ => .error "cipher failure")
        [1, 2, 3] "com.apple.madrid" 7 = (none, .channelFull) ∧
    FetchMessagesDrain none = [] ∧
    handleAPNSMessage (some (8, [])) true (fun _ => .error "cipher failure")
        [1, 2, 3] "com.apple.madrid" 7 =
      (some (8, [{ ID := "msg-7",
                   Chat := "unknown-chat",
                   Sender := "unknown-sender",
                   Text := "[Decrypt failed: cipher failure] 3 bytes",
                   Timestamp := 7,
                   Service := "" }]),
       .decryptionFailed "cipher failure") := by
  exact ⟨rfl, rfl, rfl, rfl⟩

end Messaging

namespace Ids

/-- Registration response carrying embedded status 6004 (the
unauthenticated / two-factor-required code), for concrete
evaluation. -/
def resp6004 : RegisterResp :=
  { Status := 6004,
    Message := "2fa needed",
    Services := [] }

/-- C6 counterexample: a 200-OK registration response with the non-zero
embedded status 6004 (the unauthenticated / two-factor-required code of
the IDS enumeration) is surfaced by `Register` as a bare formatted
string error, not as the typed `IDSError` condition of the fixed
enumeration, so an embedder cannot pattern-match it (for example with
`errors.Is` against `Err2FARequired`). -/
theorem register_status_not_typed_cex :
    registerCheckStatus resp6004 =
      .error (.plainText
        "registration failed with status 6004: 2fa needed") ∧
    isTypedStatusError (registerCheckStatus resp6004) = false := by
  exact ⟨rfl, rfl⟩

/-- C6 (amended): a 200-OK registration response lacking any service
entry, any user entry, or a certificate is rejected by the handshake
with a distinguishable malformed-response condition — never a nil-cert
success (success implies a present certificate) — and a non-zero
embedded status aborts `Register` with an error that embeds the numeric
status and message as text, distinguishable from transport failures
only by that text, not as a typed condition of the fixed IDS
enumeration. -/
theorem register_errors_spec (resp : RegisterResp) :
    (resp.Status ≠ 0 →
      registerCheckStatus resp = .error (.plainText
        ("registration failed with status " ++ toString resp.Status ++
          ": " ++ resp.Message)) ∧
      isTypedStatusError (registerCheckStatus resp) = false) ∧
    (resp.Services = [] → extractRegistration resp = .error .noServices) ∧
    (∀ svc svcs, resp.Services = svc :: svcs → svc.Users = [] →
      extractRegistration resp = .error .noUsers) ∧
    (∀ svc svcs user users, resp.Services = svc :: svcs →
      svc.Users = user :: users → user.Cert = none →
      extractRegistration resp = .error .noCert) ∧
    (∀ uid der, extractRegistration resp = .ok (uid, der) →
      ∃ svc svcs user users, resp.Services = svc :: svcs ∧
        svc.Users = user :: users ∧ user.Cert = some der ∧
        user.UserID = uid) := by
  refine ⟨?_, ?_, ?_, ?_, ?_⟩
  · intro h
    have hcs : registerCheckStatus resp = .error (.plainText
        ("registration failed with status " ++ toString resp.Status ++
          ": " ++ resp.Message)) := by
      rw [registerCheckStatus, if_pos h]
    exact ⟨hcs, by rw [hcs]; rfl⟩
  · intro h
    rw [extractRegistration, h]
  · intro svc svcs hs hu
    rw [extractRegistration, hs]
    dsimp only
    rw [hu]
  · intro svc svcs user users hs hu hc
    rw [extractRegistration, hs]
    dsimp only
    rw [hu]
    dsimp only
    rw [hc]
  · intro uid der h
    rw [extractRegistration] at h
    rcases hs : resp.Services with _ | ⟨svc, svcs⟩
    · rw [hs] at h
      exact absurd h (by simp)
    · rw [hs] at h
      dsimp only at h
      rcases hu : svc.Users with _ | ⟨user, users⟩
      · rw [hu] at h
        exact absurd h (by simp)
      · rw [hu] at h
        dsimp only at h
        rcases hc : user.Cert with _ | der2
        · rw [hc] at h
          exact absurd h (by simp)
        · rw [hc] at h
          dsimp only at h
          have hpair := Except.ok.inj h
          have h1 : user.UserID = uid := congrArg Prod.fst hpair
          have h2 : der2 = der := congrArg Prod.snd hpair
          exact ⟨svc, svcs, user, users, rfl, hu, hc.trans (by rw [h2]),
            h1⟩

/-- Registration response carrying embedded status 6014 (invalid
credentials), for concrete evaluation. -/
def resp6014 : RegisterResp :=
  { Status := 6014,
    Message := "bad",
    Services := [] }

/-- Successful-status registration response with no service entry. -/
def respNoServices : RegisterResp :=
  { Status := 0,
    Message := "",
    Services := [] }

/-- Successful-status registration response whose only service entry
holds no user entry. -/
def respNoUsers : RegisterResp :=
  { Status := 0,
    Message := "",
    Services := [{ Users := [] }] }

/-- Successful-status registration response whose first user entry
carries no certificate. -/
def respNoCert : RegisterResp :=
  { Status := 0,
    Message := "",
    Services := [{ Users := [{ UserID := "u", Cert := none }] }] }

/-- C6 witness: the amended theorem applied to a response with status
6014 (invalid credentials) and to responses missing the service, user
and certificate entries. -/
theorem register_errors_spec_witness :
    registerCheckStatus resp6014 =
      .error (.plainText "registration failed with status 6014: bad") ∧
    extractRegistration respNoServices = .error .noServices ∧
    extractRegistration respNoUsers = .error .noUsers ∧
    extractRegistration respNoCert = .error .noCert :=
  ⟨((register_errors_spec resp6014).1 (by decide)).1,
   (register_errors_spec respNoServices).2.1 rfl,
   (register_errors_spec respNoUsers).2.2.1 { Users := [] } [] rfl rfl,
   (register_errors_spec respNoCert).2.2.2.1
      { Users := [{ UserID := "u", Cert := none }] } []
      { UserID := "u", Cert := none } [] rfl rfl rfl⟩

end Ids
